import Mathlib

/-!
# Verification of the logging-and-learning subsystem of `sysfail.py`

Shallow embedding of the core of the repository's most elaborate chat
variant: the error-log store, the override/knowledge store, the
failure-classification policy applied to each model response
(`generate_response`), and the frequency-based candidate-selection
algorithm (`analyze_errors`).

Modelling conventions:
* Python dicts become association lists with unique keys
  (`kvLookup` / `kvInsert`).
* The error log is a `List LogRecord`.
* `str.lower().strip()` becomes `pyLower` followed by `pyStrip`
  (character-list implementations, so all definitions compute by kernel
  reduction).
* `random.choice`, `random.random() < RATE` and `random.uniform` are
  modelled as explicit parameters (`fbIdx`, `rollLow`, `lowConf`).
* `save_json_robust`'s success is a boolean parameter where only the
  returned boolean matters (`saveOk`); where the file-system effect
  matters it is modelled explicitly over an abstract file system.
* Confidence values are rationals (the source formats them to two
  decimals when storing; the numeric value is what we track).
-/

namespace SysFail

/-- `DEFAULT_FALLBACK_RESPONSES` from the source. -/
def DEFAULT_FALLBACK_RESPONSES : List String :=
  ["I'm sorry, I encountered an issue or couldn't understand clearly. Could you please rephrase?",
   "Hmm, I'm having trouble with that request. Let's try something else.",
   "My apologies, I can't seem to process that right now."]

/-- `REFUSAL_PHRASES` from the source. -/
def REFUSAL_PHRASES : List String :=
  ["i cannot", "i am unable", "i don't have information", "my apologies, but i",
   "as an ai", "i lack the ability"]

/-- Python `phrase in text` (substring containment). -/
def strContains (s pat : String) : Bool :=
  decide (pat.data <:+: s.data)

/-- Python `str.lower()` (character-wise lowering; ASCII suffices for the
fixed phrase sets involved). -/
def pyLower (s : String) : String := ⟨s.data.map Char.toLower⟩

/-- Python `str.strip()`: drop leading and trailing whitespace. -/
def pyStrip (s : String) : String :=
  ⟨((s.data.dropWhile Char.isWhitespace).reverse.dropWhile Char.isWhitespace).reverse⟩

/-- Python `text.lower().strip()` — the input normalisation used throughout. -/
def pyNorm (s : String) : String := pyStrip (pyLower s)

/-- The refusal check of `generate_response`:
`any(phrase in bot_response_text.lower() for phrase in REFUSAL_PHRASES)`. -/
def isRefusal (text : String) : Bool :=
  REFUSAL_PHRASES.any (fun p => strContains (pyLower text) p)

/-- `random.choice(DEFAULT_FALLBACK_RESPONSES)`, with the drawn index made
an explicit parameter. -/
def fallbackAt (i : Nat) : String :=
  DEFAULT_FALLBACK_RESPONSES.getD (i % DEFAULT_FALLBACK_RESPONSES.length) ""

/-- One entry of the error log (`log_entry` in `log_error`).  The
`simulated_confidence` field holds the numeric value that the source
renders with two decimals. -/
structure LogRecord where
  timestamp : Nat
  user_input : String
  bot_response : String
  error_type : String
  simulated_confidence : Option ℚ
  genai_error_details : Option String
  feedback_provided : Option String
deriving DecidableEq

/-- Association-list lookup, Python `d[k]` / `k in d` for a dict with
unique keys. -/
def kvLookup : List (String × String) → String → Option String
  | [], _ => none
  | (k, v) :: rest, key => if k = key then some v else kvLookup rest key

/-- Association-list update, Python `d[k] = v` (replace if present, else
add; keys stay unique). -/
def kvInsert (kn : List (String × String)) (k v : String) : List (String × String) :=
  if kn.any (fun p => p.1 = k) then
    kn.map (fun p => if p.1 = k then (k, v) else p)
  else kn ++ [(k, v)]

/-- Chatbot state: the two in-memory stores of
`SelfAwareChatbotStreamlit` (`learned_knowledge` and `error_logs`). -/
structure ChatState where
  learned_knowledge : List (String × String)
  error_logs : List LogRecord
deriving DecidableEq

/-- Builds the `log_entry` dict of `log_error` (feedback starts absent). -/
def mkLogEntry (now : Nat) (ui bot etype : String) (conf : Option ℚ)
    (detail : Option String) : LogRecord :=
  { timestamp := now, user_input := ui, bot_response := bot, error_type := etype,
    simulated_confidence := conf, genai_error_details := detail,
    feedback_provided := none }

/-- `SelfAwareChatbotStreamlit.log_error`: appends the entry to the log
(in memory regardless of persistence) and returns the new index only if
the save succeeded, else `none`. -/
def log_error (logs : List LogRecord) (now : Nat) (ui bot etype : String)
    (conf : Option ℚ) (detail : Option String) (saveOk : Bool) :
    Option Nat × List LogRecord :=
  let logs' := logs ++ [mkLogEntry now ui bot etype conf detail]
  (if saveOk then some (logs'.length - 1) else none, logs')

/-- `SelfAwareChatbotStreamlit.add_feedback_to_log`: if the index is in
bounds, overwrite that record's `feedback_provided` and return the save
result; otherwise return `false` with no mutation. -/
def add_feedback_to_log (logs : List LogRecord) (i : Nat) (fb : String)
    (saveOk : Bool) : Bool × List LogRecord :=
  match logs[i]? with
  | some r => (saveOk, logs.set i { r with feedback_provided := some fb })
  | none => (false, logs)

/-- `SelfAwareChatbotStreamlit.clear_log_file_data`: empties the log and
returns the save result. -/
def clear_log_file_data (saveOk : Bool) : Bool × List LogRecord :=
  (saveOk, [])

/-- `SelfAwareChatbotStreamlit.add_learned_knowledge`: rejects a literally
empty keyword or response, otherwise stores the response (stripped) under
the normalised keyword and returns the save result. -/
def add_learned_knowledge (kn : List (String × String)) (keyword response : String)
    (saveOk : Bool) : Bool × List (String × String) :=
  if keyword = "" ∨ response = "" then (false, kn)
  else (saveOk, kvInsert kn (pyNorm keyword) (pyStrip response))

/-- A model reply object: `text` is `some` when `hasattr(response, 'text')`
holds, `block_reason` is `some` when `response.prompt_feedback.block_reason`
is present and truthy. -/
structure GenAIResponse where
  text : Option String
  block_reason : Option String
deriving DecidableEq

/-- Outcome of the `genai_model.generate_content` call: it either raises
or returns (possibly a falsy/`None` object, modelled by `returns none`). -/
inductive ModelOutcome where
  | raises (err : String)
  | returns (resp : Option GenAIResponse)
deriving DecidableEq

/-- Result of processing one model outcome inside `generate_response`:
final response text, `error_type` (`none` = clean), `sim_confidence`, and
`genai_error_info`. -/
structure ProcResult where
  response : String
  error_type : Option String
  confidence : ℚ
  detail : Option String
deriving DecidableEq

/-- The response-processing / failure-detection block of
`generate_response` (the `try`/`except` body after the model call):
an exception gives `"API Error"`; a reply with a text field is checked
for refusal phrases, then for the simulated low-confidence roll; a reply
without a text field is `"Content Blocked"` when a block reason is
present, else `"API Response Format Error"`. -/
def processOutcome (o : ModelOutcome) (rollLow : Bool) (lowConf : ℚ)
    (fbIdx : Nat) : ProcResult :=
  match o with
  | .raises e =>
      { response := "I'm sorry, I encountered a technical difficulty trying to generate a response.",
        error_type := some "API Error", confidence := 0, detail := some e }
  | .returns none =>
      { response := fallbackAt fbIdx, error_type := some "API Response Format Error",
        confidence := 2/10, detail := some "Unexpected GenAI response structure" }
  | .returns (some r) =>
      match r.text with
      | some t =>
          if isRefusal t then
            { response := t, error_type := some "Refusal", confidence := 3/10,
              detail := none }
          else if rollLow then
            { response := fallbackAt fbIdx,
              error_type := some "Simulated Low Confidence", confidence := lowConf,
              detail := none }
          else
            { response := t, error_type := none, confidence := 1, detail := none }
      | none =>
          match r.block_reason with
          | some reason =>
              { response := "My response was blocked due to safety settings (" ++ reason
                  ++ "). Please try phrasing differently.",
                error_type := some "Content Blocked", confidence := 1/10,
                detail := some ("Blocked due to " ++ reason) }
          | none =>
              { response := fallbackAt fbIdx,
                error_type := some "API Response Format Error", confidence := 2/10,
                detail := some "Unexpected GenAI response structure" }

/-- Environment for one `generate_response` call: whether the GenAI model
is configured, what the model call would do, the random draws, the
persistence outcome for the log file, and the clock. -/
structure GenEnv where
  modelConfigured : Bool
  outcome : ModelOutcome
  rollLow : Bool
  lowConf : ℚ
  fbIdx : Nat
  saveOk : Bool
  now : Nat
deriving DecidableEq

/-- Observable result of one `generate_response` call: the returned pair
`(bot_response_text, error_log_index)`, the post-state, and two control
facts of the source's branch structure: whether the model was called and
whether the learned-knowledge table was consulted. -/
structure GenOut where
  response : String
  logIndex : Option Nat
  state : ChatState
  modelCalled : Bool
  overrideChecked : Bool
deriving DecidableEq

/-- `SelfAwareChatbotStreamlit.generate_response`: empty-input shortcut,
then learned-knowledge override, then configuration check, then the model
call with failure classification; any non-clean classification appends
one log record via `log_error`. -/
def generate_response (st : ChatState) (user_input : String) (env : GenEnv) : GenOut :=
  let cleaned := pyNorm user_input
  if cleaned = "" then
    { response := "Please provide some input!", logIndex := none, state := st,
      modelCalled := false, overrideChecked := false }
  else
    match kvLookup st.learned_knowledge cleaned with
    | some resp =>
        { response := resp, logIndex := none, state := st,
          modelCalled := false, overrideChecked := true }
    | none =>
        if env.modelConfigured = false then
          { response := "Error: AI Model not available.", logIndex := none,
            state := st, modelCalled := false, overrideChecked := true }
        else
          let pr := processOutcome env.outcome env.rollLow env.lowConf env.fbIdx
          match pr.error_type with
          | none =>
              { response := pr.response, logIndex := none, state := st,
                modelCalled := true, overrideChecked := true }
          | some etype =>
              let r := log_error st.error_logs env.now user_input pr.response etype
                (some pr.confidence) pr.detail env.saveOk
              { response := pr.response, logIndex := r.1,
                state := { learned_knowledge := st.learned_knowledge,
                           error_logs := r.2 },
                modelCalled := true, overrideChecked := true }

/-! ## Failure analyzer (`analyze_errors`) — candidate selection -/

/-- One increment of a `collections.Counter`: bump the count of `k` if
present, else append `(k, 1)`; insertion order is preserved (Python
dicts iterate in insertion order). -/
def bump (c : List (String × Nat)) (k : String) : List (String × Nat) :=
  if c.any (fun p => p.1 = k) then
    c.map (fun p => if p.1 = k then (p.1, p.2 + 1) else p)
  else c ++ [(k, 1)]

/-- The per-error-type input tally loop of `analyze_errors`: for each log
record, skip it when the normalised input is empty, otherwise bump the
counter for the record's error type when it matches `etype`. -/
def counterGo (etype : String) : List (String × Nat) → List LogRecord → List (String × Nat)
  | acc, [] => acc
  | acc, l :: ls =>
      counterGo etype
        (if pyNorm l.user_input = "" then acc
         else if l.error_type = etype then bump acc (pyNorm l.user_input) else acc) ls

/-- `inputs_by_error_type[etype]` after the tally loop of `analyze_errors`. -/
def counterOf (logs : List LogRecord) (etype : String) : List (String × Nat) :=
  counterGo etype [] logs

/-- `Counter.most_common(1)[0]` on a nonempty counter: the entry with the
maximal count; on ties the earliest-inserted entry wins (CPython's sort
is stable and Counter iterates in insertion order). -/
def mostCommon1 : List (String × Nat) → Option (String × Nat)
  | [] => none
  | x :: xs => some (xs.foldl (fun best p => if best.2 < p.2 then p else best) x)

/-- One iteration of the candidate loop of `analyze_errors`: if the
category has a most-frequent input whose count beats the best so far
(strictly), that `(category, input)` pair becomes the candidate. -/
def pickCandidate (acc : Option (String × String) × Nat) (etype : String)
    (top : Option (String × Nat)) : Option (String × String) × Nat :=
  match top with
  | none => acc
  | some (inp, cnt) => if acc.2 < cnt then (some (etype, inp), cnt) else acc

/-- The candidate-selection part of `analyze_errors`: the loop over
`candidate_types_priority = ["Refusal", "Knowledge Gap"]` with
`highest_freq` starting at 1, unrolled.  Returns
`(learning_candidate, highest_freq)`; the second component is the count
reported for the candidate when one exists. -/
def analyze_candidate (logs : List LogRecord) : Option (String × String) × Nat :=
  pickCandidate
    (pickCandidate (none, 1) "Refusal" (mostCommon1 (counterOf logs "Refusal")))
    "Knowledge Gap" (mostCommon1 (counterOf logs "Knowledge Gap"))

/-! ## Durable store (`load_json_robust` / `save_json_robust`)

The file system is a partial map from names to file data; a file either
holds a document that parses (`good`) or raw bytes that do not
(`corrupt`). -/

/-- Contents of one persisted file. -/
inductive FileData (α : Type) where
  | good (doc : α)
  | corrupt (raw : String)
deriving DecidableEq

/-- An abstract file system. -/
def FileSys (α : Type) := String → Option (FileData α)

/-- Point update of a file system. -/
def fsUpdate {α : Type} (fs : FileSys α) (name : String) (v : Option (FileData α)) :
    FileSys α :=
  fun n => if n = name then v else fs n

/-- How one attempted write ends: full success; failure to open the file
at all; or an I/O failure after `open(filename, 'w')` has already
truncated the file, leaving only the bytes written so far. -/
inductive WriteOutcome where
  | ok
  | openFail
  | ioFail (written : String)
deriving DecidableEq

/-- `save_json_robust`: `open(filename, 'w')` truncates the target, then
`json.dump` writes it.  On success the file holds the document and the
function returns `true`; if the open itself fails nothing changed; if the
write fails after the open, the file is left holding only the partially
written bytes.  All failures return `false` (reported, never raised). -/
def save_json_robust {α : Type} (fs : FileSys α) (name : String) (doc : α)
    (w : WriteOutcome) : Bool × FileSys α :=
  match w with
  | .ok => (true, fsUpdate fs name (some (.good doc)))
  | .openFail => (false, fs)
  | .ioFail written => (false, fsUpdate fs name (some (.corrupt written)))

/-- `load_json_robust`: missing file ⇒ persist the default (via
`save_json_robust`, whose outcome is `w`) and return it; parse success ⇒
return the document; parse failure ⇒ rename the file to
`name ++ ".bad_" ++ ts` when the rename succeeds (else leave it) and
return the default. -/
def load_json_robust {α : Type} (fs : FileSys α) (name : String) (default : α)
    (ts : String) (renameOk : Bool) (w : WriteOutcome) : α × FileSys α :=
  match fs name with
  | none => (default, (save_json_robust fs name default w).2)
  | some (.good d) => (d, fs)
  | some (.corrupt b) =>
      if renameOk then
        (default, fsUpdate (fsUpdate fs name none) (name ++ ".bad_" ++ ts)
          (some (.corrupt b)))
      else (default, fs)

/-- The concrete log of the candidate-selection scenario: three Refusal
records normalising to `"track bus 42"`, one Refusal record with input
`"college news"`, and one API-Error record with input `"track bus 42"`. -/
def scenarioLog : List LogRecord :=
  [mkLogEntry 0 "track bus 42" "I cannot track buses in real time." "Refusal"
     (some (3/10)) none,
   mkLogEntry 1 "Track Bus 42" "I cannot track buses in real time." "Refusal"
     (some (3/10)) none,
   mkLogEntry 2 " track bus 42 " "I cannot track buses in real time." "Refusal"
     (some (3/10)) none,
   mkLogEntry 3 "college news" "I cannot provide live college news." "Refusal"
     (some (3/10)) none,
   mkLogEntry 4 "track bus 42" "I'm sorry, I encountered a technical difficulty trying to generate a response."
     "API Error" (some 0) (some "timeout")]

/-! ## Theorems -/

/-- Records whose error type differs from `etype` never touch the tally
for `etype`: filtering the log down to that category first changes
nothing. -/
theorem counterGo_filter (etype : String) (logs : List LogRecord)
    (acc : List (String × Nat)) :
    counterGo etype acc (logs.filter (fun l => l.error_type == etype))
      = counterGo etype acc logs := by
  induction logs generalizing acc with
  | nil => rfl
  | cons l ls ih =>
      by_cases h : l.error_type = etype
      · rw [List.filter_cons, if_pos (by simp [h])]
        simp only [counterGo]
        exact ih _
      · rw [List.filter_cons, if_neg (by simp [h])]
        rw [ih]
        conv_rhs => rw [counterGo]
        simp [h]

/-- Closed form of the unrolled candidate loop, by cases on the two
categories' most frequent inputs. -/
theorem analyze_candidate_eq (logs : List LogRecord) :
    analyze_candidate logs =
      match mostCommon1 (counterOf logs "Refusal"),
            mostCommon1 (counterOf logs "Knowledge Gap") with
      | none, none => (none, 1)
      | some (i, c), none =>
          if 1 < c then (some ("Refusal", i), c) else (none, 1)
      | none, some (j, d) =>
          if 1 < d then (some ("Knowledge Gap", j), d) else (none, 1)
      | some (i, c), some (j, d) =>
          if 1 < c then
            if c < d then (some ("Knowledge Gap", j), d) else (some ("Refusal", i), c)
          else if 1 < d then (some ("Knowledge Gap", j), d) else (none, 1) := by
  rcases hR : mostCommon1 (counterOf logs "Refusal") with _ | ⟨i, c⟩ <;>
    rcases hK : mostCommon1 (counterOf logs "Knowledge Gap") with _ | ⟨j, d⟩ <;>
    simp only [analyze_candidate, pickCandidate, hR, hK] <;>
    split_ifs <;> simp_all

/-- C10: for every user input whose lower-cased, whitespace-trimmed form
is empty, the interaction returns the fixed text
`"Please provide some input!"` with no log index, makes no override
lookup and no model call, and leaves the state (both stores) unchanged. -/
theorem empty_input_shortcut (st : ChatState) (ui : String) (env : GenEnv)
    (h : pyNorm ui = "") :
    generate_response st ui env =
      { response := "Please provide some input!", logIndex := none, state := st,
        modelCalled := false, overrideChecked := false } := by
  simp [generate_response, h]

/-- Witness for C10 at the concrete all-whitespace input `"   "`. -/
theorem empty_input_shortcut_witness :
    generate_response ⟨[("help", "Ask me anything!")], []⟩ "   "
        ⟨true, .returns none, false, 0, 0, true, 0⟩ =
      { response := "Please provide some input!", logIndex := none,
        state := ⟨[("help", "Ask me anything!")], []⟩,
        modelCalled := false, overrideChecked := false } :=
  empty_input_shortcut ⟨[("help", "Ask me anything!")], []⟩ "   "
    ⟨true, .returns none, false, 0, 0, true, 0⟩ (by decide)

/-- C4 (counterexample): the override table can hold the empty key (see
C7), and an all-whitespace input normalises to that key, yet the
interaction takes the empty-input path and does not return the stored
response, contradicting the claim as stated. -/
theorem override_hit_empty_key_cex :
    kvLookup [("", "stored")] (pyNorm "   ") = some "stored"
    ∧ (generate_response ⟨[("", "stored")], []⟩ "   "
        ⟨true, .returns none, false, 0, 0, true, 0⟩).response
        = "Please provide some input!"
    ∧ ("Please provide some input!" : String) ≠ "stored" :=
  ⟨by decide, by decide, by decide⟩

/-- C4 (amended): for every user input whose normalised form is nonempty
and is a key of the override table, the interaction returns the stored
response immediately with no log index, no model call, and the state
(both stores) completely unchanged — regardless of the error log's
content. -/
theorem override_hit_short_circuit (st : ChatState) (ui : String) (env : GenEnv)
    (resp : String) (hne : pyNorm ui ≠ "")
    (hkv : kvLookup st.learned_knowledge (pyNorm ui) = some resp) :
    generate_response st ui env =
      { response := resp, logIndex := none, state := st,
        modelCalled := false, overrideChecked := true } := by
  simp [generate_response, hne, hkv]

/-- Witness for C4 (amended) at a concrete table and input. -/
theorem override_hit_short_circuit_witness :
    generate_response ⟨[("help", "Ask me anything!")], []⟩ "  HELP "
        ⟨true, .returns none, false, 0, 0, true, 0⟩ =
      { response := "Ask me anything!", logIndex := none,
        state := ⟨[("help", "Ask me anything!")], []⟩,
        modelCalled := false, overrideChecked := true } :=
  override_hit_short_circuit ⟨[("help", "Ask me anything!")], []⟩ "  HELP "
    ⟨true, .returns none, false, 0, 0, true, 0⟩ "Ask me anything!"
    (by decide) (by decide)

/-- C5: the three error-log operations have exactly the claimed shapes —
`log_error` appends exactly one record (with feedback absent) at the end
and leaves every existing index unchanged; `add_feedback_to_log` on a
valid index overwrites only the feedback field of that one record and
leaves every other index unchanged (and does nothing on an invalid
index); `clear_log_file_data` removes all records at once. -/
theorem error_log_single_mutation_shape
    (logs : List LogRecord) (now : Nat) (ui bot etype : String) (conf : Option ℚ)
    (detail : Option String) (saveOk : Bool) (i : Nat) (fb : String) (r : LogRecord) :
    ((log_error logs now ui bot etype conf detail saveOk).2
        = logs ++ [mkLogEntry now ui bot etype conf detail])
    ∧ (mkLogEntry now ui bot etype conf detail).feedback_provided = none
    ∧ (∀ j, j < logs.length →
        ((log_error logs now ui bot etype conf detail saveOk).2)[j]? = logs[j]?)
    ∧ (logs[i]? = some r →
        (add_feedback_to_log logs i fb saveOk).2
          = logs.set i { r with feedback_provided := some fb })
    ∧ (∀ j, j ≠ i → ((add_feedback_to_log logs i fb saveOk).2)[j]? = logs[j]?)
    ∧ (logs[i]? = none → (add_feedback_to_log logs i fb saveOk).2 = logs)
    ∧ (clear_log_file_data saveOk).2 = [] := by
  refine ⟨by simp [log_error], rfl, ?_, ?_, ?_, ?_, rfl⟩
  · intro j hj
    simp only [log_error]
    rw [List.getElem?_append]
    simp [hj]
  · intro h
    simp [add_feedback_to_log, h]
  · intro j hji
    cases h : logs[i]? with
    | some r' =>
        simp only [add_feedback_to_log, h]
        rw [List.getElem?_set_ne (by omega)]
    | none => simp [add_feedback_to_log, h]
  · intro h
    simp [add_feedback_to_log, h]

/-- Witness for C5 on a concrete one-record log. -/
theorem error_log_single_mutation_shape_witness :
    (add_feedback_to_log [mkLogEntry 0 "a" "b" "API Error" (some 0) none] 0 "good" true).2
      = [{ mkLogEntry 0 "a" "b" "API Error" (some 0) none with
            feedback_provided := some "good" }]
    ∧ (add_feedback_to_log [mkLogEntry 0 "a" "b" "API Error" (some 0) none] 1 "x" true).2
      = [mkLogEntry 0 "a" "b" "API Error" (some 0) none] :=
  ⟨(error_log_single_mutation_shape [mkLogEntry 0 "a" "b" "API Error" (some 0) none]
      1 "u" "v" "Refusal" (some 0) none true 0 "good"
      (mkLogEntry 0 "a" "b" "API Error" (some 0) none)).2.2.2.1 rfl,
   (error_log_single_mutation_shape [mkLogEntry 0 "a" "b" "API Error" (some 0) none]
      1 "u" "v" "Refusal" (some 0) none true 1 "x"
      (mkLogEntry 0 "a" "b" "API Error" (some 0) none)).2.2.2.2.2.1 rfl⟩

/-- C6: `add_feedback_to_log` with an index at or beyond the current
length returns `false` and leaves the log unchanged; the index returned
by a successful `log_error` is the old length, and attaching feedback at
that index (with no intervening clear) succeeds and is reflected in the
record at that index. -/
theorem attach_feedback_bounds
    (logs : List LogRecord) (i : Nat) (fb : String) (saveOk : Bool)
    (now : Nat) (ui bot etype : String) (conf : Option ℚ) (detail : Option String) :
    (logs.length ≤ i → add_feedback_to_log logs i fb saveOk = (false, logs))
    ∧ ((log_error logs now ui bot etype conf detail true).1 = some logs.length)
    ∧ ((add_feedback_to_log (log_error logs now ui bot etype conf detail saveOk).2
          logs.length fb true).1 = true)
    ∧ (((add_feedback_to_log (log_error logs now ui bot etype conf detail saveOk).2
          logs.length fb true).2)[logs.length]?
        = some { mkLogEntry now ui bot etype conf detail with
                  feedback_provided := some fb }) := by
  have hget : ((log_error logs now ui bot etype conf detail saveOk).2)[logs.length]?
      = some (mkLogEntry now ui bot etype conf detail) := by
    simp [log_error]
  refine ⟨?_, by simp [log_error], ?_, ?_⟩
  · intro h
    simp [add_feedback_to_log, List.getElem?_eq_none h]
  · simp [add_feedback_to_log, hget]
  · simp only [add_feedback_to_log, hget]
    exact List.getElem?_set_eq_of_lt _ (by simp [log_error])

/-- Witness for C6: out-of-bounds attach fails on a concrete log, and the
append-then-attach round-trip is visible at the returned index. -/
theorem attach_feedback_bounds_witness :
    (add_feedback_to_log [mkLogEntry 0 "a" "b" "API Error" (some 0) none] 5 "x" true
        = (false, [mkLogEntry 0 "a" "b" "API Error" (some 0) none]))
    ∧ ((log_error [] 0 "u" "v" "Refusal" (some 0) none true).1 = some 0)
    ∧ (((add_feedback_to_log (log_error [] 0 "u" "v" "Refusal" (some 0) none true).2
          0 "thanks" true).2)[0]?
        = some { mkLogEntry 0 "u" "v" "Refusal" (some 0) none with
                  feedback_provided := some "thanks" }) :=
  ⟨(attach_feedback_bounds [mkLogEntry 0 "a" "b" "API Error" (some 0) none]
      5 "x" true 0 "u" "v" "Refusal" (some 0) none).1 (by decide),
   (attach_feedback_bounds [] 0 "thanks" true 0 "u" "v" "Refusal" (some 0) none).2.1,
   (attach_feedback_bounds [] 0 "thanks" true 0 "u" "v" "Refusal" (some 0) none).2.2.2⟩

/-- C2 (counterexample): a returned structure that carries both a text
field and a safety-block indicator is classified by the text path —
here `"Refusal"` — and not `"Content Blocked"`, because the source checks
`hasattr(response, 'text')` before ever looking at
`prompt_feedback.block_reason`. -/
theorem classifier_block_precedence_cex :
    (processOutcome (.returns (some ⟨some "I cannot help with that.", some "SAFETY"⟩))
        false 0 0).error_type = some "Refusal"
    ∧ (some "Refusal" : Option String) ≠ some "Content Blocked" :=
  ⟨rfl, by decide⟩

/-- C2 (amended): the classifier's actual priority order — `"API Error"`
when the call raised; otherwise, when the reply has a text field:
`"Refusal"` on a refusal phrase, else `"Simulated Low Confidence"` on the
simulated roll, else clean (`none`); only when the text field is absent
is the safety-block indicator consulted (`"Content Blocked"`), and
`"API Response Format Error"` covers the remaining structures. -/
theorem classifier_priority_order (o : ModelOutcome) (roll : Bool) (lc : ℚ) (fi : Nat) :
    (∀ e, o = .raises e →
      (processOutcome o roll lc fi).error_type = some "API Error")
    ∧ (o = .returns none →
      (processOutcome o roll lc fi).error_type = some "API Response Format Error")
    ∧ (∀ r t, o = .returns (some r) → r.text = some t → isRefusal t = true →
      (processOutcome o roll lc fi).error_type = some "Refusal")
    ∧ (∀ r t, o = .returns (some r) → r.text = some t → isRefusal t = false →
      roll = true →
      (processOutcome o roll lc fi).error_type = some "Simulated Low Confidence")
    ∧ (∀ r t, o = .returns (some r) → r.text = some t → isRefusal t = false →
      roll = false → (processOutcome o roll lc fi).error_type = none)
    ∧ (∀ r b, o = .returns (some r) → r.text = none → r.block_reason = some b →
      (processOutcome o roll lc fi).error_type = some "Content Blocked")
    ∧ (∀ r, o = .returns (some r) → r.text = none → r.block_reason = none →
      (processOutcome o roll lc fi).error_type
        = some "API Response Format Error") := by
  refine ⟨?_, ?_, ?_, ?_, ?_, ?_, ?_⟩
  · intro e he; subst he; rfl
  · intro he; subst he; rfl
  · intro r t ho ht href; subst ho; simp [processOutcome, ht, href]
  · intro r t ho ht href hroll; subst ho; subst hroll
    simp [processOutcome, ht, href]
  · intro r t ho ht href hroll; subst ho; subst hroll
    simp [processOutcome, ht, href]
  · intro r b ho ht hb; subst ho; simp [processOutcome, ht, hb]
  · intro r ho ht hb; subst ho; simp [processOutcome, ht, hb]

/-- Witness for C2 (amended): the clean branch at a concrete harmless
reply, via the amended priority-order theorem. -/
theorem classifier_priority_order_witness :
    (processOutcome (.returns (some ⟨some "The market opens at 9:30.", none⟩))
        false 0 0).error_type = none :=
  (classifier_priority_order (.returns (some ⟨some "The market opens at 9:30.", none⟩))
      false 0 0).2.2.2.2.1 ⟨some "The market opens at 9:30.", none⟩
    "The market opens at 9:30." rfl rfl (by decide) rfl

/-- C3: a reply with a text field, not flagged as blocked, whose
lower-cased text contains a refusal phrase is classified `"Refusal"` with
confidence `0.3`, and both the response shown to the user and the
`bot_response` stored in the appended log record are the model's original
reply, verbatim. -/
theorem refusal_preserved_verbatim (st : ChatState) (ui : String) (env : GenEnv)
    (r : GenAIResponse) (t : String)
    (hne : pyNorm ui ≠ "")
    (hkv : kvLookup st.learned_knowledge (pyNorm ui) = none)
    (hcfg : env.modelConfigured = true)
    (hout : env.outcome = .returns (some r))
    (ht : r.text = some t)
    (hblock : r.block_reason = none)
    (href : isRefusal t = true) :
    (generate_response st ui env).response = t
    ∧ (generate_response st ui env).state.error_logs
        = st.error_logs ++ [mkLogEntry env.now ui t "Refusal" (some (3/10)) none] := by
  simp [generate_response, hne, hkv, hcfg, hout, processOutcome, ht, href, log_error]

/-- Witness for C3 at a concrete refusal reply. -/
theorem refusal_preserved_verbatim_witness :
    (generate_response ⟨[], []⟩ "track bus 42"
        ⟨true, .returns (some ⟨some "I cannot track buses in real time.", none⟩),
          false, 0, 0, true, 7⟩).response = "I cannot track buses in real time."
    ∧ (generate_response ⟨[], []⟩ "track bus 42"
        ⟨true, .returns (some ⟨some "I cannot track buses in real time.", none⟩),
          false, 0, 0, true, 7⟩).state.error_logs
        = [] ++ [mkLogEntry 7 "track bus 42" "I cannot track buses in real time."
            "Refusal" (some (3/10)) none] :=
  refusal_preserved_verbatim ⟨[], []⟩ "track bus 42"
    ⟨true, .returns (some ⟨some "I cannot track buses in real time.", none⟩),
      false, 0, 0, true, 7⟩
    ⟨some "I cannot track buses in real time.", none⟩
    "I cannot track buses in real time."
    (by decide) rfl rfl rfl rfl rfl (by decide)

/-- C7 (counterexample): an all-whitespace keyword is truthy in Python,
so it passes the validation check; the pair is stored under the empty
normalised key and the save result is returned — the claim's demand of
`(false, unchanged-store)` fails here. -/
theorem upsert_whitespace_key_cex :
    add_learned_knowledge [] " " "x" true = (true, [("", "x")])
    ∧ add_learned_knowledge [] " " "x" true
        ≠ ((false, []) : Bool × List (String × String)) :=
  ⟨by decide, by decide⟩

/-- C7 (amended): `add_learned_knowledge` rejects (returns `false`, no
mutation) exactly the literally empty keyword or response; any other
keyword — including an all-whitespace one, whose normalised form is the
empty string — is stored under its case-folded, trimmed form with the
stripped response, and the returned boolean is the persistence result. -/
theorem upsert_validation (kn : List (String × String)) (k resp : String) (s : Bool) :
    ((k = "" ∨ resp = "") → add_learned_knowledge kn k resp s = (false, kn))
    ∧ (k ≠ "" → resp ≠ "" →
        add_learned_knowledge kn k resp s
          = (s, kvInsert kn (pyNorm k) (pyStrip resp))) := by
  constructor
  · intro h; simp [add_learned_knowledge, h]
  · intro hk hr; simp [add_learned_knowledge, hk, hr]

/-- Witness for C7 (amended): rejection of an empty keyword and storage
of a normal pair, on concrete inputs. -/
theorem upsert_validation_witness :
    add_learned_knowledge [("help", "h")] "" "y" true = (false, [("help", "h")])
    ∧ add_learned_knowledge [("help", "h")] " Bus 42 " "On Main St." true
        = (true, kvInsert [("help", "h")] (pyNorm " Bus 42 ") (pyStrip "On Main St.")) :=
  ⟨(upsert_validation [("help", "h")] "" "y" true).1 (Or.inl rfl),
   (upsert_validation [("help", "h")] " Bus 42 " "On Main St." true).2
     (by decide) (by decide)⟩

/-- C8 (counterexample): `save_json_robust` opens the target with mode
`'w'`, which truncates it before `json.dump` runs; a write failure after
the open therefore destroys the previously persisted version — here a
good document is left as empty corrupt bytes, while the claim demands the
prior content stay intact. -/
theorem save_failure_truncates_cex :
    ((fun n => if n = "log.json" then some (FileData.good (7 : Nat)) else none :
        FileSys Nat) "log.json" = some (.good 7))
    ∧ (save_json_robust
        (fun n => if n = "log.json" then some (FileData.good (7 : Nat)) else none)
        "log.json" 8 (.ioFail "")).1 = false
    ∧ (save_json_robust
        (fun n => if n = "log.json" then some (FileData.good (7 : Nat)) else none)
        "log.json" 8 (.ioFail "")).2 "log.json" = some (.corrupt "")
    ∧ (some (FileData.corrupt "") : Option (FileData Nat)) ≠ some (.good 7) :=
  ⟨by decide, rfl, by decide, by decide⟩

/-- C8 (amended): every failing write returns `false` and never raises,
but the prior version is guaranteed intact only when the open itself
fails; a failure after the open leaves the file holding just the
partially written bytes (the open truncated it), and only a fully
successful write replaces the document. -/
theorem save_failure_behavior {α : Type} (fs : FileSys α) (name : String) (doc : α)
    (p : String) :
    save_json_robust fs name doc .ok = (true, fsUpdate fs name (some (.good doc)))
    ∧ (save_json_robust fs name doc .ok).2 name = some (.good doc)
    ∧ save_json_robust fs name doc .openFail = (false, fs)
    ∧ (save_json_robust fs name doc (.ioFail p)).1 = false
    ∧ (save_json_robust fs name doc (.ioFail p)).2 name = some (.corrupt p) := by
  refine ⟨rfl, ?_, rfl, rfl, ?_⟩ <;> simp [save_json_robust, fsUpdate]

/-- C9: a stored document that exists but fails to parse makes
`load_json_robust` return the default, and (when the rename succeeds) the
corrupt bytes end up under the distinct quarantine name
`name ++ ".bad_" ++ ts` while the original name is vacated — the corrupt
data stays on the storage medium; a missing document makes the default
the persisted initial document and returns it. -/
theorem load_corrupt_quarantine {α : Type} (fs : FileSys α) (name : String) (d : α)
    (ts : String) (b : String) (w : WriteOutcome) :
    (fs name = some (.corrupt b) → ∀ rOk,
        (load_json_robust fs name d ts rOk w).1 = d)
    ∧ (fs name = some (.corrupt b) →
        (load_json_robust fs name d ts true w).2 (name ++ ".bad_" ++ ts)
          = some (.corrupt b)
        ∧ (load_json_robust fs name d ts true w).2 name = none
        ∧ name ++ ".bad_" ++ ts ≠ name)
    ∧ (fs name = none →
        (load_json_robust fs name d ts true .ok).1 = d
        ∧ (load_json_robust fs name d ts true .ok).2 name = some (.good d)) := by
  have hbad : (".bad_" : String).length = 5 := rfl
  have hlen : name ++ ".bad_" ++ ts ≠ name := by
    intro h
    have h2 := congrArg String.length h
    simp [String.length_append, hbad] at h2
    omega
  refine ⟨?_, ?_, ?_⟩
  · intro h rOk
    cases rOk <;> simp [load_json_robust, h]
  · intro h
    refine ⟨?_, ?_, hlen⟩
    · simp [load_json_robust, h, fsUpdate]
    · simp only [load_json_robust, h, if_true, fsUpdate]
      rw [if_neg (fun hh => hlen hh.symm)]
  · intro h
    simp [load_json_robust, h, save_json_robust, fsUpdate]

/-- Witness for C9 on a concrete file system holding unparsable bytes,
and on a missing file. -/
theorem load_corrupt_quarantine_witness :
    (load_json_robust
        (fun n => if n = "kb.json" then some (FileData.corrupt "oops not json") else none)
        "kb.json" (17 : Nat) "20240101000000" true .ok).1 = 17
    ∧ (load_json_robust
        (fun n => if n = "kb.json" then some (FileData.corrupt "oops not json") else none)
        "kb.json" (17 : Nat) "20240101000000" true .ok).2 "kb.json.bad_20240101000000"
        = some (.corrupt "oops not json")
    ∧ (load_json_robust (fun _ => none) "kb.json" (17 : Nat) "x" true .ok).2 "kb.json"
        = some (.good 17) :=
  ⟨(load_corrupt_quarantine
      (fun n => if n = "kb.json" then some (FileData.corrupt "oops not json") else none)
      "kb.json" 17 "20240101000000" "oops not json" .ok).1 (by decide) true,
   ((load_corrupt_quarantine
      (fun n => if n = "kb.json" then some (FileData.corrupt "oops not json") else none)
      "kb.json" 17 "20240101000000" "oops not json" .ok).2.1 (by decide)).1,
   ((load_corrupt_quarantine (fun _ => none) "kb.json" 17 "x" "b" .ok).2.2
      rfl).2⟩

/-- C1: on the scenario log the candidate is `("Refusal", "track bus 42")`
with reported count 3 (the API-Error occurrence does not contribute);
generally, per-input tallies are taken within each learnable category
only, a candidate exists only with count exceeding 1 and is that
category's most frequent input with exactly that count, the candidate is
the highest-recurrence input across the learnable categories, and ties
between categories are broken in the priority order
`["Refusal", "Knowledge Gap"]`. -/
theorem analyze_candidate_selection :
    analyze_candidate scenarioLog = (some ("Refusal", "track bus 42"), 3)
    ∧ (∀ logs etype, counterOf logs etype
        = counterOf (logs.filter (fun l => l.error_type == etype)) etype)
    ∧ (∀ logs p, (analyze_candidate logs).1 = some p →
        1 < (analyze_candidate logs).2
        ∧ (p.1 = "Refusal" ∨ p.1 = "Knowledge Gap")
        ∧ mostCommon1 (counterOf logs p.1) = some (p.2, (analyze_candidate logs).2))
    ∧ (∀ logs i j c, 1 < c →
        mostCommon1 (counterOf logs "Refusal") = some (i, c) →
        mostCommon1 (counterOf logs "Knowledge Gap") = some (j, c) →
        (analyze_candidate logs).1 = some ("Refusal", i))
    ∧ (∀ logs i j d, (analyze_candidate logs).1 = some ("Refusal", i) →
        mostCommon1 (counterOf logs "Knowledge Gap") = some (j, d) →
        d ≤ (analyze_candidate logs).2) := by
  refine ⟨by decide, ?_, ?_, ?_, ?_⟩
  · intro logs etype
    exact (counterGo_filter etype logs []).symm
  · intro logs p h
    rw [analyze_candidate_eq] at h ⊢
    rcases hR : mostCommon1 (counterOf logs "Refusal") with _ | ⟨i, c⟩ <;>
      rcases hK : mostCommon1 (counterOf logs "Knowledge Gap") with _ | ⟨j, d⟩ <;>
      rw [hR, hK] at h <;> simp only at h ⊢
    · simp at h
    · split_ifs at h ⊢ with h1
      · obtain rfl : ("Knowledge Gap", j) = p := by
          simpa using h
        exact ⟨show 1 < d from h1, Or.inr rfl, hK⟩
    · split_ifs at h ⊢ with h1
      · obtain rfl : ("Refusal", i) = p := by
          simpa using h
        exact ⟨show 1 < c from h1, Or.inl rfl, hR⟩
    · split_ifs at h ⊢ with h1 h2 h3
      · obtain rfl : ("Knowledge Gap", j) = p := by
          simpa using h
        exact ⟨show 1 < d by omega, Or.inr rfl, hK⟩
      · obtain rfl : ("Refusal", i) = p := by
          simpa using h
        exact ⟨show 1 < c from h1, Or.inl rfl, hR⟩
      · obtain rfl : ("Knowledge Gap", j) = p := by
          simpa using h
        exact ⟨show 1 < d from h3, Or.inr rfl, hK⟩
  · intro logs i j c hc hR hK
    rw [analyze_candidate_eq, hR, hK]
    simp only
    rw [if_pos hc, if_neg (by omega)]
  · intro logs i j d h hK
    rw [analyze_candidate_eq] at h ⊢
    rw [hK] at h ⊢
    rcases hR : mostCommon1 (counterOf logs "Refusal") with _ | ⟨i', c'⟩ <;>
      rw [hR] at h <;> simp only at h ⊢
    · split_ifs at h ⊢ with h1
      · simp only [Option.some.injEq, Prod.mk.injEq] at h
        exact absurd h.1 (by decide)
    · split_ifs at h ⊢ with h1 h2
      · simp only [Option.some.injEq, Prod.mk.injEq] at h
        exact absurd h.1 (by decide)
      · exact show d ≤ c' by omega
      · simp only [Option.some.injEq, Prod.mk.injEq] at h
        exact absurd h.1 (by decide)

/-- Witness for C1: the implicational parts applied on the scenario log. -/
theorem analyze_candidate_selection_witness :
    1 < (analyze_candidate scenarioLog).2
    ∧ mostCommon1 (counterOf scenarioLog "Refusal")
        = some ("track bus 42", (analyze_candidate scenarioLog).2) := by
  have h := analyze_candidate_selection
  have h3 := h.2.2.1 scenarioLog ("Refusal", "track bus 42") (by rw [h.1])
  exact ⟨h3.1, h3.2.2⟩

end SysFail
